import Mathlib

/-!
Shallow embedding of the scheduling and change-detection core of the
Universal-scraper repository (Scheduler.executeSearch, NotificationManager,
the Marktplaats/Lidl fetch adapters and the Telegram dispatch path), together
with theorems settling the specification claims about it.

Modelling conventions:
* JavaScript numbers that carry prices, percentages and thresholds are
  modelled as rationals; `Math.round` becomes `jsRound`.
* Timestamps (`new Date()`) are modelled as natural numbers; one logical
  execution uses a single instant `now`.
* The knex-backed tables become lists inside a `Database` record; SQL
  auto-increment ids are the `nextProductId` / `nextNotificationId` counters.
* `async/await` code that can throw is modelled with `Except` or with an
  explicit failure oracle; a `try/catch` boundary becomes a `match` on the
  result.
-/

/-- JavaScript `Math.round`: rounds half toward positive infinity,
`Math.round x = ⌊x + 1/2⌋`. -/
def jsRound (x : ℚ) : ℤ :=
  Int.floor (x + 1 / 2)

/-- The `NotificationType` enum of NotificationManager.ts. -/
inductive NotificationType where
  | NEW_PRODUCT
  | PRICE_DROP
  deriving DecidableEq

/-- The `NewProduct` interface (domain/Product.ts): a listing as returned by a
fetch adapter, before it has a database id. -/
structure NewProduct where
  externalId : String
  title : String
  description : String
  price : ℚ
  oldPrice : Option ℚ
  priceType : Option String
  currency : String
  productUrl : String
  imageUrl : Option String
  location : Option String
  distanceMeters : Option ℤ
  retailerId : ℕ
  isAvailable : Bool
  discoveredAt : ℕ
  lastCheckedAt : ℕ
  deriving DecidableEq

/-- The `Product` interface (domain/Product.ts): `Product extends NewProduct`
with the database id. -/
structure Product extends NewProduct where
  id : ℕ
  deriving DecidableEq

/-- The `SearchQuery` interface (domain/SearchQuery.ts). -/
structure SearchQuery where
  id : ℕ
  userId : ℕ
  retailerId : ℕ
  searchText : String
  apiUrl : Option String
  lastScrapedAt : Option ℕ
  isActive : Bool
  intervalMinutes : ℕ
  notifyOnNew : Bool
  notifyOnPriceDrops : Bool
  priceDropThresholdPercent : Option ℚ
  deriving DecidableEq

/-- A row of the `notifications` table. -/
structure Notification where
  id : ℕ
  userId : ℕ
  productId : ℕ
  searchQueryId : ℕ
  notificationType : NotificationType
  createdAt : ℕ
  isRead : Bool
  deriving DecidableEq

/-- The persistent store: the `products`, `notifications` and
`search_queries` tables, with the auto-increment counters of the two tables
this core inserts into. -/
structure Database where
  products : List Product
  notifications : List Notification
  queries : List SearchQuery
  nextProductId : ℕ
  nextNotificationId : ℕ
  deriving DecidableEq

/-- Embeds `Scheduler.calculatePriceDropPercentage` (NotificationManager.ts):
returns 0 when either price is ≤ 0, otherwise
`Math.round((oldPrice - newPrice) / oldPrice * 100)`. -/
def calculatePriceDropPercentage (oldPrice newPrice : ℚ) : ℤ :=
  if oldPrice ≤ 0 ∨ newPrice ≤ 0 then 0
  else jsRound ((oldPrice - newPrice) / oldPrice * 100)

/-- The row inserted by `NotificationManager.createNotification`:
`{userId, productId, searchQueryId, notificationType, createdAt, isRead: false}`. -/
def mkNotification (id userId productId searchQueryId : ℕ)
    (t : NotificationType) (now : ℕ) : Notification :=
  ⟨id, userId, productId, searchQueryId, t, now, false⟩

/-- Embeds `NotificationManager.createNotification`: insert the row (unread) and
return the generated id. -/
def createNotification (db : Database) (userId productId searchQueryId : ℕ)
    (t : NotificationType) (now : ℕ) : Database × ℕ :=
  let id := db.nextNotificationId
  ({ db with
      notifications :=
        db.notifications ++ [mkNotification id userId productId searchQueryId t now]
      nextNotificationId := id + 1 }, id)

/-- The existing-product lookup of `Scheduler.executeSearch`:
`db('products').where({retailerId, externalId}).first()`. -/
def findExistingProduct (products : List Product) (np : NewProduct) : Option Product :=
  products.find? (fun p => p.retailerId == np.retailerId && p.externalId == np.externalId)

/-- The column assignments of the re-sight UPDATE in `Scheduler.executeSearch`
(`db('products').where({id: existingProduct.id}).update({...})`), applied to a
matching row.  The SET values are computed from the previously fetched
`existingProduct` object and the fresh listing; unlisted columns keep the
row's values. -/
def resightUpdate (row existing : Product) (np : NewProduct) (now : ℕ) : Product :=
  { row with
      lastCheckedAt := now
      price := np.price
      oldPrice := if existing.price ≠ np.price then some existing.price else existing.oldPrice
      priceType := np.priceType
      location := np.location
      distanceMeters := np.distanceMeters }

/-- The INSERT of `Scheduler.executeSearch` for a listing not found in the
store: `insertAndGetId('products', {...newProduct, discoveredAt: now,
lastCheckedAt: now})`. -/
def insertedProduct (np : NewProduct) (now : ℕ) (productId : ℕ) : Product :=
  { toNewProduct := { np with discoveredAt := now, lastCheckedAt := now }
    id := productId }

/-- The threshold test of `Scheduler.executeSearch`:
`!query.priceDropThresholdPercent || dropPercentage >= query.priceDropThresholdPercent`.
A JavaScript falsy threshold (absent or 0) always passes. -/
def meetsThreshold (threshold : Option ℚ) (dropPercentage : ℤ) : Bool :=
  match threshold with
  | none => true
  | some v => v == 0 || decide ((v : ℚ) ≤ (dropPercentage : ℚ))

/-- One iteration of the per-listing loop of `Scheduler.executeSearch`
(the successful, non-throwing path): look the listing up by
(retailerId, externalId); if found, apply the re-sight UPDATE and create a
PRICE_DROP notification when `!isFirstRun && query.notifyOnPriceDrops &&
newProduct.price < existingProduct.price` and the threshold test passes;
if not found, INSERT the listing and create a NEW_PRODUCT notification when
`!isFirstRun && query.notifyOnNew`. -/
def processListing (q : SearchQuery) (isFirstRun : Bool) (now : ℕ)
    (db : Database) (np : NewProduct) : Database :=
  match findExistingProduct db.products np with
  | some existing =>
      let db1 : Database :=
        { db with
            products := db.products.map
              (fun p => if p.id = existing.id then resightUpdate p existing np now else p) }
      if !isFirstRun && q.notifyOnPriceDrops && decide (np.price < existing.price) then
        if meetsThreshold q.priceDropThresholdPercent
            (calculatePriceDropPercentage existing.price np.price) then
          (createNotification db1 q.userId existing.id q.id NotificationType.PRICE_DROP now).1
        else db1
      else db1
  | none =>
      let productId := db.nextProductId
      let db1 : Database :=
        { db with
            products := db.products ++ [insertedProduct np now productId]
            nextProductId := productId + 1 }
      if !isFirstRun && q.notifyOnNew then
        (createNotification db1 q.userId productId q.id NotificationType.NEW_PRODUCT now).1
      else db1

/-- The whole per-listing loop of `Scheduler.executeSearch`, in order. -/
def processListings (q : SearchQuery) (isFirstRun : Bool) (now : ℕ) :
    Database → List NewProduct → Database
  | db, [] => db
  | db, np :: rest =>
      processListings q isFirstRun now (processListing q isFirstRun now db np) rest

/-- The trailing step of `Scheduler.executeSearch`:
`db('search_queries').where({id: query.id}).update({lastScrapedAt: new Date()})`. -/
def setLastScraped (db : Database) (queryId now : ℕ) : Database :=
  { db with
      queries := db.queries.map
        (fun q => if q.id = queryId then { q with lastScrapedAt := some now } else q) }

/-- Embeds `Scheduler.executeSearch` on the successful path: compute
`isFirstRun = !query.lastScrapedAt`, reconcile every fetched listing, then
advance `lastScrapedAt`. -/
def executeSearch (q : SearchQuery) (fetched : List NewProduct) (now : ℕ)
    (db : Database) : Database :=
  setLastScraped (processListings q q.lastScrapedAt.isNone now db fetched) q.id now

/-- The per-listing loop with its exception flow made explicit: the loop body
of `Scheduler.executeSearch` has no per-listing try/catch, so a listing whose
processing throws (oracle `failsOn`) aborts the loop then and there; writes
already made stay.  Returns the database together with `true` when the whole
batch was processed. -/
def processListingsE (failsOn : NewProduct → Bool) (q : SearchQuery)
    (isFirstRun : Bool) (now : ℕ) :
    Database → List NewProduct → Database × Bool
  | db, [] => (db, true)
  | db, np :: rest =>
      if failsOn np then (db, false)
      else processListingsE failsOn q isFirstRun now
            (processListing q isFirstRun now db np) rest

/-- Embeds `Scheduler.executeSearch` with its exception flow made explicit.  The body
is wrapped in one try/catch: a throwing `scraper.search` (`fetchResult =
.error`) or a throwing listing write is caught there and only logged, and
`lastScrapedAt` is advanced only when control reaches the end of the try
block.  Returns the database and whether the pipeline completed. -/
def executeSearchE (q : SearchQuery) (fetchResult : Except Unit (List NewProduct))
    (failsOn : NewProduct → Bool) (now : ℕ) (db : Database) : Database × Bool :=
  match fetchResult with
  | Except.error _ => (db, false)
  | Except.ok listings =>
      let r := processListingsE failsOn q q.lastScrapedAt.isNone now db listings
      if r.2 then (setLastScraped r.1 q.id now, true) else r

/-- The Scheduler's own state: the job-handle table (`jobs`, here the ids of
the scheduled queries) next to the store. -/
structure SchedulerState where
  jobs : List ℕ
  db : Database
  deriving DecidableEq

/-- What one firing of the recurring job does. -/
structure FiringOutcome where
  state : SchedulerState
  executed : Bool
  skipLogged : Bool
  deriving DecidableEq

/-- One firing of the recurring job armed by `Scheduler.scheduleQuery`.  The
callback body is: log, `await this.executeSearch(query, scraper)`, record the
execution time, log the next run.  It contains no branch at all — in
particular it never reads any in-flight bookkeeping, so its behaviour cannot
depend on `stillRunning`, the number of executions of the same query still
running when the timer fires: the search is executed unconditionally and no
skip is ever logged.  The callback never touches the job table. -/
def cronFiring (stillRunning : ℕ) (q : SearchQuery)
    (fetchResult : Except Unit (List NewProduct)) (failsOn : NewProduct → Bool)
    (now : ℕ) (s : SchedulerState) : FiringOutcome :=
  ⟨{ s with db := (executeSearchE q fetchResult failsOn now s.db).1 }, true, false⟩

/-- Price information of one upstream Marktplaats item. -/
structure PriceInfo where
  priceCents : ℤ
  priceType : String
  deriving DecidableEq

/-- The `MarktplaatsItem` shape: one listing of the upstream search response
(MarktplaatsScraper.ts).  `pictureLargeUrls` lists the `largeUrl` of each
entry of `pictures`. -/
structure MarktplaatsItem where
  itemId : String
  title : String
  description : String
  priceInfo : PriceInfo
  locationCityName : Option String
  locationDistanceMeters : Option ℤ
  pictureLargeUrls : List String
  imageUrls : List String
  deriving DecidableEq

/-- Embeds `String.startsWith`, evaluably: the prefix's characters head the
string's characters. -/
def strStartsWith (s p : String) : Bool :=
  p.data.isPrefixOf s.data

/-- JavaScript `a || b` on optional strings: an absent or empty left operand
falls through to the right one. -/
def jsOrElse (a b : Option String) : Option String :=
  match a with
  | some s => if s = "" then b else some s
  | none => b

/-- Embeds `MarktplaatsScraper.convertItemToProduct`: a `FAST_BID` price type maps
the price to 0 (bidding, no fixed price), otherwise the price is
`priceCents / 100`; the image URL falls back from `pictures[0].largeUrl` to
`imageUrls[0]` and gets an `https:` prefix when protocol-relative; the city
name falls back to `Onbekend`. -/
def convertItemToProduct (retailerId : ℕ) (item : MarktplaatsItem) (now : ℕ) :
    NewProduct :=
  { externalId := item.itemId
    title := item.title
    description := item.description
    price :=
      if item.priceInfo.priceType = "FAST_BID" then 0
      else (item.priceInfo.priceCents : ℚ) / 100
    oldPrice := none
    priceType := some item.priceInfo.priceType
    currency := "EUR"
    productUrl := "https://www.marktplaats.nl/v/" ++ item.itemId
    imageUrl :=
      (jsOrElse item.pictureLargeUrls.head? item.imageUrls.head?).map
        (fun u => if u = "" then u else if strStartsWith u ("http") then u else ("https:" ++ u))
    location :=
      some (match item.locationCityName with
            | some c => if c = "" then ("Onbekend") else c
            | none => "Onbekend")
    distanceMeters := item.locationDistanceMeters
    retailerId := retailerId
    isAvailable := true
    discoveredAt := now
    lastCheckedAt := now }

/-- Embeds `LidlScraper.processProducts`: each item is converted inside its own
try/catch (`processApiProduct` may throw, oracle result `.error`), so a
failing item is logged and skipped while the loop continues with the rest. -/
def processProducts {α : Type} (processApiProduct : α → Except Unit NewProduct) :
    List α → List NewProduct
  | [] => []
  | item :: rest =>
      match processApiProduct item with
      | Except.ok p => p :: processProducts processApiProduct rest
      | Except.error _ => processProducts processApiProduct rest

/-- One delivery attempt made by `TelegramBot.sendFormattedMessage`. -/
inductive DeliveryAttempt where
  | photo (imageUrl : String)
  | textMessage
  deriving DecidableEq

/-- Embeds `TelegramBot.sendFormattedMessage`: when the formatted notification has an
image URL starting with `http`, a photo message is attempted first and a
plain-text message is attempted as fallback if the photo send throws
(`photoFails`); otherwise only a text message is attempted.  Every failure is
caught and logged; the function never touches the store. -/
def sendFormattedMessage (photoFails : Bool) (imageUrl : Option String) :
    List DeliveryAttempt :=
  match imageUrl with
  | some u =>
      if strStartsWith u ("http") then
        if photoFails then [DeliveryAttempt.photo u, DeliveryAttempt.textMessage]
        else [DeliveryAttempt.photo u]
      else [DeliveryAttempt.textMessage]
  | none => [DeliveryAttempt.textMessage]

/-- The notify-then-push sequence of `Scheduler.executeSearch`
(createNotification followed by `sendImmediateNotification` when a
TelegramBot is wired in).  `sendImmediateNotification` only reads the store
and catches every delivery error, so the database result is the one
`createNotification` produced, whatever the delivery oracles say. -/
def notifyAndSend (db : Database) (userId productId searchQueryId : ℕ)
    (t : NotificationType) (now : ℕ) (telegramAvailable photoFails : Bool)
    (imageUrl : Option String) : Database × List DeliveryAttempt :=
  let r := createNotification db userId productId searchQueryId t now
  (r.1, if telegramAvailable then sendFormattedMessage photoFails imageUrl else [])

/-! ### Characterisation lemmas for the reconciliation step -/

theorem createNotification_products (db : Database) (u p s : ℕ)
    (t : NotificationType) (now : ℕ) :
    ((createNotification db u p s t now).1).products = db.products := rfl

theorem createNotification_queries (db : Database) (u p s : ℕ)
    (t : NotificationType) (now : ℕ) :
    ((createNotification db u p s t now).1).queries = db.queries := rfl

/-- The per-listing step never writes to the `search_queries` table. -/
theorem processListing_queries (q : SearchQuery) (b : Bool) (now : ℕ)
    (db : Database) (np : NewProduct) :
    (processListing q b now db np).queries = db.queries := by
  unfold processListing
  cases findExistingProduct db.products np <;> dsimp only <;>
    (repeat' split) <;> rfl

/-- What the per-listing step does to the `products` table: the re-sight
UPDATE on the matching rows, or the INSERT of the fresh listing. -/
theorem processListing_products_char (q : SearchQuery) (b : Bool) (now : ℕ)
    (db : Database) (np : NewProduct) :
    (processListing q b now db np).products
      = match findExistingProduct db.products np with
        | some existing =>
            db.products.map
              (fun p => if p.id = existing.id then resightUpdate p existing np now else p)
        | none => db.products ++ [insertedProduct np now db.nextProductId] := by
  unfold processListing
  cases findExistingProduct db.products np <;> dsimp only <;>
    (repeat' split) <;> rfl

/-- What the per-listing step does to the `notifications` table: one unread
PRICE_DROP row exactly when the re-sight guard and the threshold test pass,
one unread NEW_PRODUCT row exactly when the insert guard passes, nothing
otherwise. -/
theorem processListing_notifications_char (q : SearchQuery) (b : Bool) (now : ℕ)
    (db : Database) (np : NewProduct) :
    (processListing q b now db np).notifications
      = match findExistingProduct db.products np with
        | some existing =>
            if !b && q.notifyOnPriceDrops && decide (np.price < existing.price)
                && meetsThreshold q.priceDropThresholdPercent
                     (calculatePriceDropPercentage existing.price np.price) then
              db.notifications
                ++ [mkNotification db.nextNotificationId q.userId existing.id q.id
                      NotificationType.PRICE_DROP now]
            else db.notifications
        | none =>
            if !b && q.notifyOnNew then
              db.notifications
                ++ [mkNotification db.nextNotificationId q.userId db.nextProductId q.id
                      NotificationType.NEW_PRODUCT now]
            else db.notifications := by
  unfold processListing
  cases findExistingProduct db.products np with
  | none =>
      dsimp only
      split <;> rfl
  | some existing =>
      dsimp only
      rcases hg : (!b && q.notifyOnPriceDrops && decide (np.price < existing.price)) with _ | _ <;>
        rcases hm : meetsThreshold q.priceDropThresholdPercent
          (calculatePriceDropPercentage existing.price np.price) with _ | _ <;>
        simp [hg, hm, createNotification]

theorem setLastScraped_products (db : Database) (qid now : ℕ) :
    (setLastScraped db qid now).products = db.products := rfl

theorem setLastScraped_notifications (db : Database) (qid now : ℕ) :
    (setLastScraped db qid now).notifications = db.notifications := rfl

/-! ### The (retailerId, externalId) reconciliation key -/

/-- The reconciliation key of a stored product. -/
def productKey (p : Product) : ℕ × String :=
  (p.retailerId, p.externalId)

/-- The `unique(['retailerId', 'externalId'])` constraint of the `products`
table (database.ts): no two rows share the reconciliation key. -/
def UniqueKeys (l : List Product) : Prop :=
  l.Pairwise (fun a b => productKey a ≠ productKey b)

theorem resightUpdate_key (row existing : Product) (np : NewProduct) (now : ℕ) :
    productKey (resightUpdate row existing np now) = productKey row := rfl

theorem insertedProduct_key (np : NewProduct) (now pid : ℕ) :
    productKey (insertedProduct np now pid) = (np.retailerId, np.externalId) := rfl

/-- The re-sight UPDATE leaves every row's key (and id) unchanged. -/
theorem updateRow_key (existing : Product) (np : NewProduct) (now : ℕ) (x : Product) :
    productKey (if x.id = existing.id then resightUpdate x existing np now else x)
      = productKey x := by
  split <;> rfl

/-- A product found by `findExistingProduct` carries the listing's key. -/
theorem findExistingProduct_key (products : List Product) (np : NewProduct)
    (existing : Product) (h : findExistingProduct products np = some existing) :
    existing ∈ products ∧ productKey existing = (np.retailerId, np.externalId) := by
  refine ⟨List.mem_of_find?_eq_some h, ?_⟩
  have hp := List.find?_some h
  simp only [Bool.and_eq_true, beq_iff_eq] at hp
  simp [productKey, hp.1, hp.2]

/-- No stored product carries the listing's key when the lookup misses. -/
theorem findExistingProduct_none_key (products : List Product) (np : NewProduct)
    (h : findExistingProduct products np = none) :
    ∀ p ∈ products, productKey p ≠ (np.retailerId, np.externalId) := by
  intro p hp hk
  have := List.find?_eq_none.mp h p hp
  apply this
  simp only [productKey, Prod.mk.injEq] at hk
  simp [hk.1, hk.2]

/-- One reconciliation step preserves key uniqueness: the UPDATE rewrites rows
in place keeping their keys, and the INSERT happens only when the key is
absent. -/
theorem uniqueKeys_processListing (q : SearchQuery) (b : Bool) (now : ℕ)
    (db : Database) (np : NewProduct) (h : UniqueKeys db.products) :
    UniqueKeys (processListing q b now db np).products := by
  rw [UniqueKeys, processListing_products_char]
  cases hf : findExistingProduct db.products np with
  | some existing =>
      dsimp only
      rw [List.pairwise_map]
      refine h.imp ?_
      intro a b hab hc
      apply hab
      rwa [updateRow_key, updateRow_key] at hc
  | none =>
      dsimp only
      rw [List.pairwise_append]
      refine ⟨h, List.pairwise_singleton _ _, ?_⟩
      intro a ha b hb
      rw [List.mem_singleton] at hb
      subst hb
      rw [insertedProduct_key]
      exact findExistingProduct_none_key db.products np hf a ha

theorem uniqueKeys_processListings (q : SearchQuery) (b : Bool) (now : ℕ)
    (l : List NewProduct) :
    ∀ db : Database, UniqueKeys db.products →
      UniqueKeys (processListings q b now db l).products := by
  induction l with
  | nil => intro db h; exact h
  | cons np rest ih =>
      intro db h
      exact ih _ (uniqueKeys_processListing q b now db np h)

/-- The listing's key is present after its reconciliation step. -/
theorem hasKey_processListing_self (q : SearchQuery) (b : Bool) (now : ℕ)
    (db : Database) (np : NewProduct) :
    ∃ p ∈ (processListing q b now db np).products,
      productKey p = (np.retailerId, np.externalId) := by
  rw [processListing_products_char]
  cases hf : findExistingProduct db.products np with
  | some existing =>
      obtain ⟨hmem, hkey⟩ := findExistingProduct_key db.products np existing hf
      exact ⟨_, List.mem_map_of_mem _ hmem, by rw [updateRow_key]; exact hkey⟩
  | none =>
      exact ⟨insertedProduct np now db.nextProductId,
        List.mem_append_right _ (List.mem_singleton_self _), insertedProduct_key np now _⟩

/-- A key present in the store stays present through a reconciliation step. -/
theorem hasKey_processListing_mono (q : SearchQuery) (b : Bool) (now : ℕ)
    (db : Database) (np : NewProduct) (k : ℕ × String)
    (h : ∃ p ∈ db.products, productKey p = k) :
    ∃ p ∈ (processListing q b now db np).products, productKey p = k := by
  obtain ⟨p, hp, hk⟩ := h
  rw [processListing_products_char]
  cases hf : findExistingProduct db.products np with
  | some existing =>
      exact ⟨_, List.mem_map_of_mem _ hp, by rw [updateRow_key]; exact hk⟩
  | none =>
      exact ⟨p, List.mem_append_left _ hp, hk⟩

theorem hasKey_processListings_mono (q : SearchQuery) (b : Bool) (now : ℕ)
    (l : List NewProduct) :
    ∀ (db : Database) (k : ℕ × String), (∃ p ∈ db.products, productKey p = k) →
      ∃ p ∈ (processListings q b now db l).products, productKey p = k := by
  induction l with
  | nil => intro db k h; exact h
  | cons np rest ih =>
      intro db k h
      exact ih _ k (hasKey_processListing_mono q b now db np k h)

/-- Every listing of a batch has its key present after the whole loop. -/
theorem hasKey_processListings_self (q : SearchQuery) (b : Bool) (now : ℕ)
    (l : List NewProduct) :
    ∀ db : Database, ∀ np ∈ l,
      ∃ p ∈ (processListings q b now db l).products,
        productKey p = (np.retailerId, np.externalId) := by
  induction l with
  | nil => intro db np h; exact absurd h (List.not_mem_nil np)
  | cons hd rest ih =>
      intro db np h
      rcases List.mem_cons.mp h with rfl | h2
      · exact hasKey_processListings_mono q b now rest _ _
          (hasKey_processListing_self q b now db np)
      · exact ih _ np h2

/-- On a first run (`isFirstRun = true`) the per-listing step writes no
notification row, whatever the lookup result, the prices and the query's
notification flags. -/
theorem processListing_notifications_firstRun (q : SearchQuery) (now : ℕ)
    (db : Database) (np : NewProduct) :
    (processListing q true now db np).notifications = db.notifications := by
  rw [processListing_notifications_char]
  cases hf : findExistingProduct db.products np <;> simp

theorem processListings_notifications_firstRun (q : SearchQuery) (now : ℕ)
    (l : List NewProduct) :
    ∀ db : Database, (processListings q true now db l).notifications = db.notifications := by
  induction l with
  | nil => intro db; rfl
  | cons np rest ih =>
      intro db
      rw [processListings, ih, processListing_notifications_firstRun]

/-! ### Shared concrete sample data -/

/-- A sample fetched listing. -/
def sampleListing : NewProduct :=
  { externalId := "a", title := "t", description := "d", price := 100,
    oldPrice := none, priceType := none, currency := "EUR", productUrl := "u",
    imageUrl := none, location := none, distanceMeters := none, retailerId := 1,
    isAvailable := true, discoveredAt := 0, lastCheckedAt := 0 }

/-- A sample stored product with the same key as `sampleListing`. -/
def sampleProduct : Product :=
  { toNewProduct := sampleListing, id := 1 }

/-- A sample query: active, both notification flags on, no threshold. -/
def sampleQuery : SearchQuery :=
  { id := 1, userId := 1, retailerId := 1, searchText := "s", apiUrl := none,
    lastScrapedAt := some 0, isActive := true, intervalMinutes := 5,
    notifyOnNew := true, notifyOnPriceDrops := true,
    priceDropThresholdPercent := none }

/-! ### Claim C1 -/

/-- C1: for every query whose `lastScrapedAt` is null (never completed a
run), executing the query persists every fetched listing in the product
store (each listing's (retailerId, externalId) key is present afterwards, by
UPDATE or INSERT) but creates zero notification rows — whatever each
listing's NEW/CHANGED classification and whatever the query's `notifyOnNew`
and `notifyOnPriceDrops` flags, since every notification write is guarded by
`!isFirstRun`. -/
theorem firstRun_persists_and_silent (q : SearchQuery) (listings : List NewProduct)
    (now : ℕ) (db : Database) (h : q.lastScrapedAt = none) :
    (executeSearch q listings now db).notifications = db.notifications
    ∧ ∀ np ∈ listings, ∃ p ∈ (executeSearch q listings now db).products,
        productKey p = (np.retailerId, np.externalId) := by
  have hb : q.lastScrapedAt.isNone = true := by rw [h]; rfl
  unfold executeSearch
  rw [hb]
  constructor
  · rw [setLastScraped_notifications, processListings_notifications_firstRun]
  · intro np hnp
    rw [setLastScraped_products]
    exact hasKey_processListings_self q true now listings db np hnp

/-- A query that has never run, for the C1 witness. -/
def firstRunQuery : SearchQuery :=
  { sampleQuery with lastScrapedAt := none }

/-- Concrete input for the C1 witness. -/
def firstRunDb : Database :=
  ⟨[], [], [firstRunQuery], 1, 1⟩

theorem firstRun_persists_and_silent_witness :
    (executeSearch firstRunQuery [sampleListing] 5 firstRunDb).notifications
        = firstRunDb.notifications
    ∧ ∃ p ∈ (executeSearch firstRunQuery [sampleListing] 5 firstRunDb).products,
        productKey p = (sampleListing.retailerId, sampleListing.externalId) :=
  ⟨(firstRun_persists_and_silent firstRunQuery [sampleListing] 5 firstRunDb rfl).1,
   (firstRun_persists_and_silent firstRunQuery [sampleListing] 5 firstRunDb rfl).2
      sampleListing (List.mem_singleton_self _)⟩

/-! ### Claim C8 -/

/-- C8: the pair (retailerId, externalId) stays unique across the product
store: every reconciliation step looks an existing product up by this key and
either rewrites matching rows in place (keys unchanged) or inserts exactly
one new row whose key was absent, so a store with pairwise-distinct keys
still has pairwise-distinct keys after a whole query execution. -/
theorem reconciliation_preserves_key_uniqueness (q : SearchQuery)
    (listings : List NewProduct) (now : ℕ) (db : Database)
    (h : UniqueKeys db.products) :
    UniqueKeys (executeSearch q listings now db).products := by
  unfold executeSearch
  rw [setLastScraped_products]
  exact uniqueKeys_processListings q _ now listings db h

/-- A second stored product, with a different external id. -/
def sampleProductB : Product :=
  { toNewProduct := { sampleListing with externalId := "b" }, id := 2 }

/-- Concrete store with two distinct keys, for the C8 witness. -/
def uniqueDb : Database :=
  ⟨[sampleProduct, sampleProductB], [], [sampleQuery], 3, 1⟩

theorem reconciliation_preserves_key_uniqueness_witness :
    UniqueKeys (executeSearch sampleQuery
        [{ sampleListing with externalId := "c" }] 5 uniqueDb).products :=
  reconciliation_preserves_key_uniqueness sampleQuery
    [{ sampleListing with externalId := "c" }] 5 uniqueDb
    (by
      rw [UniqueKeys]
      refine List.pairwise_cons.mpr ⟨?_, List.pairwise_singleton _ _⟩
      intro b hb
      rw [List.mem_singleton] at hb
      subst hb
      decide)

/-! ### Claim C4 -/

theorem processListingsE_queries (failsOn : NewProduct → Bool) (q : SearchQuery)
    (b : Bool) (now : ℕ) (l : List NewProduct) :
    ∀ db : Database, ((processListingsE failsOn q b now db l).1).queries = db.queries := by
  induction l with
  | nil => intro db; rfl
  | cons np rest ih =>
      intro db
      rw [processListingsE]
      split
      · rfl
      · rw [ih, processListing_queries]

/-- C4: `lastScrapedAt` is advanced only when the execution pipeline runs
through to its persistence step: a failing fetch (`fetchResult = .error`) or
a throwing listing write is caught by the try/catch at the top of
`executeSearch` and leaves the `search_queries` table — in particular the
query's `lastScrapedAt` — untouched, and a timer firing never modifies the
scheduler's job table, so the recurring schedule survives the failure. -/
theorem execution_failure_semantics (q : SearchQuery)
    (fetchResult : Except Unit (List NewProduct)) (failsOn : NewProduct → Bool)
    (now : ℕ) (db : Database) (stillRunning : ℕ) (s : SchedulerState)
    (hfail : (executeSearchE q fetchResult failsOn now db).2 = false) :
    (executeSearchE q fetchResult failsOn now db).1.queries = db.queries
    ∧ (cronFiring stillRunning q fetchResult failsOn now s).state.jobs = s.jobs := by
  refine ⟨?_, rfl⟩
  cases fetchResult with
  | error e => rfl
  | ok listings =>
      unfold executeSearchE at hfail ⊢
      dsimp only at hfail ⊢
      rcases h2 : (processListingsE failsOn q q.lastScrapedAt.isNone now db listings).2 with _ | _
      · simp only [h2, Bool.false_eq_true, if_false]
        exact processListingsE_queries failsOn q _ now listings db
      · simp only [h2, if_true] at hfail
        exact absurd hfail (by simp)

/-- Concrete scheduler state for the C4 witness. -/
def failureSchedState : SchedulerState :=
  ⟨[sampleQuery.id], ⟨[sampleProduct], [], [sampleQuery], 2, 1⟩⟩

theorem execution_failure_semantics_witness :
    (executeSearchE sampleQuery (Except.error ()) (fun _ => false) 5
        failureSchedState.db).1.queries = failureSchedState.db.queries
    ∧ (cronFiring 0 sampleQuery (Except.error ()) (fun _ => false) 5
        failureSchedState).state.jobs = failureSchedState.jobs :=
  execution_failure_semantics sampleQuery (Except.error ()) (fun _ => false) 5
    failureSchedState.db 0 failureSchedState rfl

/-! ### Claim C2 -/

/-- When the fresh price is strictly below the stored one, the computed drop
percentage is never negative. -/
theorem calculatePriceDropPercentage_nonneg (a b : ℚ) (h : b < a) :
    0 ≤ calculatePriceDropPercentage a b := by
  unfold calculatePriceDropPercentage
  split
  · exact le_refl 0
  · rename_i hn
    push_neg at hn
    rw [jsRound, Int.le_floor]
    have hx : (0:ℚ) ≤ (a - b) / a * 100 :=
      mul_nonneg (div_nonneg (by linarith) (le_of_lt hn.1)) (by norm_num)
    push_cast
    linarith

/-- Appending one element under a boolean guard: the result is one of the two
lists, and it differs from the original exactly when the guard holds. -/
theorem guardedAppend_char {A : Type} (c : Bool) (Y : List A) (x : A) :
    ((if c = true then Y ++ [x] else Y) = Y ∨ (if c = true then Y ++ [x] else Y) = Y ++ [x])
    ∧ ((if c = true then Y ++ [x] else Y) ≠ Y ↔ c = true) := by
  cases c with
  | false => simp
  | true =>
      rw [if_pos rfl]
      refine ⟨Or.inr rfl, ?_, fun _ => ?_⟩
      · intro _; rfl
      · intro hc
        have := congrArg List.length hc
        simp at this

/-- C2 (amended): on a non-first run, a re-sighted listing produces exactly
one unread PRICE_DROP notification if and only if the query's
`notifyOnPriceDrops` flag is set, the fresh price is strictly below the
stored price, and the threshold is unset or the computed drop percentage —
`round((stored - fresh) / stored * 100)`, which is 0 whenever the stored
price ≤ 0 OR the fresh price ≤ 0 — is at least the threshold. -/
theorem priceDrop_decision_iff (q : SearchQuery) (np : NewProduct)
    (existing : Product) (now : ℕ) (db : Database)
    (hfound : findExistingProduct db.products np = some existing) :
    ((processListing q false now db np).notifications = db.notifications
      ∨ (processListing q false now db np).notifications
          = db.notifications
              ++ [mkNotification db.nextNotificationId q.userId existing.id q.id
                    NotificationType.PRICE_DROP now])
    ∧ ((processListing q false now db np).notifications ≠ db.notifications
        ↔ q.notifyOnPriceDrops = true ∧ np.price < existing.price
            ∧ (q.priceDropThresholdPercent = none
                ∨ ∃ v, q.priceDropThresholdPercent = some v
                    ∧ v ≤ ((calculatePriceDropPercentage existing.price np.price : ℤ) : ℚ))) := by
  rw [processListing_notifications_char, hfound]
  dsimp only
  obtain ⟨hA, hIff⟩ := guardedAppend_char
    (!false && q.notifyOnPriceDrops && decide (np.price < existing.price)
      && meetsThreshold q.priceDropThresholdPercent
           (calculatePriceDropPercentage existing.price np.price))
    db.notifications
    (mkNotification db.nextNotificationId q.userId existing.id q.id
      NotificationType.PRICE_DROP now)
  refine ⟨hA, hIff.trans ?_⟩
  constructor
  · intro hg
    simp only [Bool.not_false, Bool.true_and, Bool.and_eq_true, decide_eq_true_eq] at hg
    obtain ⟨⟨h1, h2⟩, hm⟩ := hg
    refine ⟨h1, h2, ?_⟩
    cases hthr : q.priceDropThresholdPercent with
    | none => exact Or.inl rfl
    | some v =>
        rw [hthr] at hm
        simp only [meetsThreshold, Bool.or_eq_true, beq_iff_eq, decide_eq_true_eq] at hm
        rcases hm with h0 | hle
        · refine Or.inr ⟨v, rfl, ?_⟩
          have hnn := calculatePriceDropPercentage_nonneg existing.price np.price h2
          rw [h0]
          exact_mod_cast hnn
        · exact Or.inr ⟨v, rfl, hle⟩
  · rintro ⟨h1, h2, h3⟩
    have hm : meetsThreshold q.priceDropThresholdPercent
        (calculatePriceDropPercentage existing.price np.price) = true := by
      rcases h3 with hnone | ⟨v, hv, hle⟩
      · simp [meetsThreshold, hnone]
      · simp only [meetsThreshold, hv, Bool.or_eq_true, beq_iff_eq, decide_eq_true_eq]
        exact Or.inr hle
    simp [h1, h2, hm]

/-- The drop-percentage formula exactly as the claim sentence states it:
`round((storedPrice - freshPrice) / storedPrice * 100)`, guarding only
against a stored price ≤ 0 (no guard on the fresh price). -/
def claimDropPercent (oldPrice newPrice : ℚ) : ℤ :=
  if oldPrice ≤ 0 then 0 else jsRound ((oldPrice - newPrice) / oldPrice * 100)

/-- A query with a 50 % threshold. -/
def thresholdQuery : SearchQuery :=
  { sampleQuery with priceDropThresholdPercent := some 50 }

/-- A re-sighted listing whose fresh price is 0. -/
def zeroListing : NewProduct :=
  { sampleListing with price := 0 }

/-- A store holding `sampleProduct` (price 100). -/
def storeDb : Database :=
  ⟨[sampleProduct], [], [sampleQuery], 2, 1⟩

/-- C2 counterexample: at stored price 100, fresh price 0, threshold 50 and
`notifyOnPriceDrops` on, every condition of the claim holds — the fresh price
is strictly below the stored one and the claim's formula gives a 100 % drop,
at least the 50 % threshold — yet the code creates no PRICE_DROP
notification, because `calculatePriceDropPercentage` also returns 0 when the
fresh price is ≤ 0. -/
theorem priceDrop_formula_counterexample :
    thresholdQuery.notifyOnPriceDrops = true
    ∧ zeroListing.price < sampleProduct.price
    ∧ thresholdQuery.priceDropThresholdPercent = some 50
    ∧ (50 : ℚ) ≤ ((claimDropPercent sampleProduct.price zeroListing.price : ℤ) : ℚ)
    ∧ thresholdQuery.lastScrapedAt = some 0
    ∧ findExistingProduct storeDb.products zeroListing = some sampleProduct
    ∧ (processListing thresholdQuery false 5 storeDb zeroListing).notifications
        = storeDb.notifications := by
  have hf : findExistingProduct storeDb.products zeroListing = some sampleProduct := rfl
  have hdrop0 : calculatePriceDropPercentage sampleProduct.price zeroListing.price = 0 := by
    norm_num [calculatePriceDropPercentage, sampleProduct, sampleListing, zeroListing]
  have hmeet : meetsThreshold thresholdQuery.priceDropThresholdPercent
      (calculatePriceDropPercentage sampleProduct.price zeroListing.price) = false := by
    rw [hdrop0]
    norm_num [meetsThreshold, thresholdQuery, sampleQuery]
  refine ⟨rfl, ?_, rfl, ?_, rfl, hf, ?_⟩
  · show (0 : ℚ) < 100
    norm_num
  · show (50 : ℚ) ≤ ((claimDropPercent 100 0 : ℤ) : ℚ)
    norm_num [claimDropPercent, jsRound]
  · rw [processListing_notifications_char, hf]
    dsimp only
    rw [hmeet]
    simp

/-- A query with a 10 % threshold. -/
def dropQuery : SearchQuery :=
  { sampleQuery with priceDropThresholdPercent := some 10 }

/-- A re-sighted listing dropped by exactly the threshold percentage. -/
def dropListing : NewProduct :=
  { sampleListing with price := 90 }

/-- A re-sighted listing dropped by one point less than the threshold. -/
def dropListingBelow : NewProduct :=
  { sampleListing with price := 91 }

theorem priceDrop_decision_iff_witness :
    (processListing dropQuery false 5 storeDb dropListing).notifications
        ≠ storeDb.notifications
    ∧ (processListing dropQuery false 5 storeDb dropListingBelow).notifications
        = storeDb.notifications := by
  constructor
  · refine (priceDrop_decision_iff dropQuery dropListing sampleProduct 5 storeDb rfl).2.mpr
      ⟨rfl, ?_, Or.inr ⟨10, rfl, ?_⟩⟩
    · show (90 : ℚ) < 100
      norm_num
    · have h10 : calculatePriceDropPercentage sampleProduct.price dropListing.price = 10 := by
        norm_num [calculatePriceDropPercentage, jsRound, sampleProduct, sampleListing,
          dropListing]
      rw [h10]
      norm_num
  · have hiff := (priceDrop_decision_iff dropQuery dropListingBelow sampleProduct 5 storeDb rfl).2
    refine not_not.mp (mt hiff.mp ?_)
    rintro ⟨-, -, h3⟩
    have h9 : calculatePriceDropPercentage sampleProduct.price dropListingBelow.price = 9 := by
      norm_num [calculatePriceDropPercentage, jsRound, sampleProduct, sampleListing,
        dropListingBelow]
    rcases h3 with hnone | ⟨v, hv, hle⟩
    · simp [dropQuery, sampleQuery] at hnone
    · simp only [dropQuery, sampleQuery, Option.some.injEq] at hv
      rw [← hv, h9] at hle
      norm_num at hle

/-! ### Claim C3 -/

/-- A brand-new upstream listing for the C3 scenario. -/
def overlapListing : NewProduct :=
  { sampleListing with externalId := "fresh" }

/-- Scheduler state in which query 1 is scheduled and one execution of it is
assumed still in flight when the timer fires again. -/
def overlapState : SchedulerState :=
  ⟨[sampleQuery.id], ⟨[], [], [sampleQuery], 1, 1⟩⟩

/-- C3 counterexample: with one execution of the query still running
(`stillRunning = 1`), the next timer firing is NOT skipped — the callback
executes the search anyway (here visibly: it inserts the fetched listing into
the product store) and logs no skip, because the recurring callback armed by
`Scheduler.scheduleQuery` contains no in-flight check at all. -/
theorem overlapping_firing_counterexample :
    (cronFiring 1 sampleQuery (Except.ok [overlapListing]) (fun _ => false) 5
        overlapState).executed = true
    ∧ (cronFiring 1 sampleQuery (Except.ok [overlapListing]) (fun _ => false) 5
        overlapState).skipLogged = false
    ∧ (cronFiring 1 sampleQuery (Except.ok [overlapListing]) (fun _ => false) 5
        overlapState).state.db.products.length
        = overlapState.db.products.length + 1 := by
  refine ⟨rfl, rfl, rfl⟩

/-- C3 (amended): the scheduler's recurring callback runs `executeSearch`
unconditionally on every timer firing — it consults no in-flight state, so
whatever the number of still-running executions of the same query, the firing
is executed (never skipped), no skip is logged, and the job table is left
unchanged; overlapping firings therefore run concurrently instead of being
skipped. -/
theorem cron_firing_unconditional (stillRunning : ℕ) (q : SearchQuery)
    (fetchResult : Except Unit (List NewProduct)) (failsOn : NewProduct → Bool)
    (now : ℕ) (s : SchedulerState) :
    (cronFiring stillRunning q fetchResult failsOn now s).executed = true
    ∧ (cronFiring stillRunning q fetchResult failsOn now s).skipLogged = false
    ∧ (cronFiring stillRunning q fetchResult failsOn now s).state.jobs = s.jobs
    ∧ (cronFiring stillRunning q fetchResult failsOn now s).state.db
        = (executeSearchE q fetchResult failsOn now s.db).1 :=
  ⟨rfl, rfl, rfl, rfl⟩

/-! ### Claim C5 -/

/-- Failure oracle that makes the listing with external id "a" throw. -/
def failsOnA : NewProduct → Bool := fun np => np.externalId == "a"

/-- A second listing in the same batch. -/
def listingB : NewProduct :=
  { sampleListing with externalId := "b" }

/-- An empty product store. -/
def emptyDb : Database :=
  ⟨[], [], [sampleQuery], 1, 1⟩

/-- C5 counterexample: in the batch `[sampleListing, listingB]` a processing
failure of the first listing aborts the whole reconciliation loop of
`executeSearch` — the run fails and `listingB` is never persisted (the store
is left exactly as it was), because the loop body has no per-listing
try/catch. -/
theorem listing_failure_aborts_batch_counterexample :
    (processListingsE failsOnA sampleQuery false 5 emptyDb [sampleListing, listingB]).2
        = false
    ∧ (processListingsE failsOnA sampleQuery false 5 emptyDb [sampleListing, listingB]).1
        = emptyDb := by
  refine ⟨rfl, rfl⟩

/-- C5 (amended): the two failure granularities live in different places. A
single item's conversion failure inside the fetch adapter
(`LidlScraper.processProducts`) is caught per item, logged and skipped, and
the remaining items of the batch are still processed; but a per-listing
failure inside the reconciliation loop of `Scheduler.executeSearch` is not
caught per listing — it aborts the remaining listings of the batch and is
caught only by the try/catch at the top of `executeSearch`. -/
theorem listing_failure_granularity {α : Type} (parse : α → Except Unit NewProduct)
    (bad : α) (hbad : parse bad = Except.error ()) (xs ys : List α)
    (failsOn : NewProduct → Bool) (np : NewProduct) (hnp : failsOn np = true)
    (q : SearchQuery) (b : Bool) (now : ℕ) (db : Database)
    (rest : List NewProduct) :
    processProducts parse (xs ++ bad :: ys)
      = processProducts parse xs ++ processProducts parse ys
    ∧ processListingsE failsOn q b now db (np :: rest) = (db, false) := by
  constructor
  · induction xs with
    | nil => simp [processProducts, hbad]
    | cons x xt ih =>
        rw [List.cons_append, processProducts, processProducts]
        cases parse x with
        | ok p => dsimp only; rw [ih, List.cons_append]
        | error e => exact ih
  · rw [processListingsE, hnp]
    simp

/-- A conversion that always fails, for the C5 witness. -/
def badParse : Unit → Except Unit NewProduct := fun _ => Except.error ()

/-- A failure oracle making every listing write throw, for the C5 witness. -/
def failsAll : NewProduct → Bool := fun _ => true

theorem listing_failure_granularity_witness :
    processProducts badParse ([] ++ () :: [])
      = processProducts badParse [] ++ processProducts badParse []
    ∧ processListingsE failsAll sampleQuery false 5 storeDb [sampleListing]
        = (storeDb, false) :=
  listing_failure_granularity badParse () rfl [] [] failsAll sampleListing rfl
    sampleQuery false 5 storeDb []

/-! ### Claim C6 -/

/-- A stored product with price 50, currently marked unavailable. -/
def staleProduct : Product :=
  { toNewProduct := { sampleListing with price := 50, isAvailable := false }, id := 1 }

/-- A re-sighted listing whose fresh price 60 is ABOVE the stored price. -/
def raisedListing : NewProduct :=
  { sampleListing with price := 60 }

/-- C6 counterexample: on a re-sight with fresh price 60 against stored price
50 the UPDATE sets `oldPrice` to the stored price even though the price did
not drop (the claim says previousPrice is set exactly when fresh < stored),
and it leaves `isAvailable` untouched at `false` (the claim says availability
is set to true). -/
theorem resight_update_counterexample :
    (resightUpdate staleProduct staleProduct raisedListing 7).oldPrice = some 50
    ∧ (resightUpdate staleProduct staleProduct raisedListing 7).isAvailable = false := by
  constructor
  · have hne : staleProduct.price ≠ raisedListing.price := by
      show (50 : ℚ) ≠ 60
      norm_num
    show (if staleProduct.price ≠ raisedListing.price
          then some staleProduct.price else staleProduct.oldPrice) = some 50
    rw [if_pos hne]
    rfl
  · rfl

/-- C6 (amended): the re-sight UPDATE sets `lastCheckedAt` to now and
refreshes price, price-type, location and distance unconditionally; it sets
`oldPrice` to the stored price exactly when the fresh price DIFFERS from the
stored price (price increases included); it does NOT touch availability; and
every other column — discoveredAt, title, description, currency, the URLs,
the key and the id — is left unchanged.  When the fresh price is greater than
or equal to the stored price the update stays silent: no notification row is
written. -/
theorem resight_update_fields (row existing : Product) (np : NewProduct) (now : ℕ)
    (q : SearchQuery) (db : Database)
    (hfound : findExistingProduct db.products np = some existing) :
    (resightUpdate row existing np now).lastCheckedAt = now
    ∧ (resightUpdate row existing np now).price = np.price
    ∧ (resightUpdate row existing np now).priceType = np.priceType
    ∧ (resightUpdate row existing np now).location = np.location
    ∧ (resightUpdate row existing np now).distanceMeters = np.distanceMeters
    ∧ (resightUpdate row existing np now).oldPrice
        = (if existing.price ≠ np.price then some existing.price else existing.oldPrice)
    ∧ (resightUpdate row existing np now).isAvailable = row.isAvailable
    ∧ (resightUpdate row existing np now).discoveredAt = row.discoveredAt
    ∧ (resightUpdate row existing np now).title = row.title
    ∧ (resightUpdate row existing np now).description = row.description
    ∧ (resightUpdate row existing np now).currency = row.currency
    ∧ (resightUpdate row existing np now).productUrl = row.productUrl
    ∧ (resightUpdate row existing np now).imageUrl = row.imageUrl
    ∧ (resightUpdate row existing np now).retailerId = row.retailerId
    ∧ (resightUpdate row existing np now).externalId = row.externalId
    ∧ (resightUpdate row existing np now).id = row.id
    ∧ (existing.price ≤ np.price →
        (processListing q false now db np).notifications = db.notifications) := by
  refine ⟨rfl, rfl, rfl, rfl, rfl, rfl, rfl, rfl, rfl, rfl, rfl, rfl, rfl, rfl, rfl, rfl, ?_⟩
  intro hge
  rw [processListing_notifications_char, hfound]
  dsimp only
  rw [decide_eq_false (not_lt.mpr hge)]
  simp

/-- A re-sighted listing with fresh price 150 against stored 100. -/
def raisedListingHigh : NewProduct :=
  { sampleListing with price := 150 }

theorem resight_update_fields_witness :
    (resightUpdate sampleProduct sampleProduct raisedListingHigh 7).isAvailable
        = sampleProduct.isAvailable
    ∧ (processListing sampleQuery false 7 storeDb raisedListingHigh).notifications
        = storeDb.notifications := by
  obtain ⟨-, -, -, -, -, -, h7, -, -, -, -, -, -, -, -, -, h17⟩ :=
    resight_update_fields sampleProduct sampleProduct raisedListingHigh 7
      sampleQuery storeDb rfl
  refine ⟨h7, h17 ?_⟩
  show (100 : ℚ) ≤ 150
  norm_num

/-! ### Claim C7 -/

/-- A bid-type (FAST_BID) listing whose converted price is 0. -/
def bidListing : NewProduct :=
  { sampleListing with price := 0, priceType := some ("FAST_BID") }

/-- C7 counterexample: a bid-type listing (priceType FAST_BID, price 0)
re-sighted against a stored price of 100 under a query with
`notifyOnPriceDrops` on and no threshold DOES produce a PRICE_DROP
notification: the classification never consults the price-type tag and
treats the zero bid price as a literal drop to zero. -/
theorem bid_zero_price_counterexample :
    bidListing.priceType = some ("FAST_BID")
    ∧ (processListing sampleQuery false 5 storeDb bidListing).notifications
        = storeDb.notifications
            ++ [mkNotification storeDb.nextNotificationId sampleQuery.userId
                  sampleProduct.id sampleQuery.id NotificationType.PRICE_DROP 5] := by
  refine ⟨rfl, ?_⟩
  have hf : findExistingProduct storeDb.products bidListing = some sampleProduct := rfl
  rw [processListing_notifications_char, hf]
  dsimp only
  have hlt : decide (bidListing.price < sampleProduct.price) = true := by
    apply decide_eq_true
    show (0 : ℚ) < 100
    norm_num
  rw [hlt]
  simp [meetsThreshold, sampleQuery]

/-- C7 (amended): the reconciliation classification never consults the
price-type tag — its notification outcome is unchanged under any rewrite of
the listing's `priceType` — and compares prices numerically.  What remains
true of the claim: a bid-type listing whose price stays 0 across two runs
never triggers a drop notification (0 < 0 fails), and the Marktplaats adapter
maps every FAST_BID listing to price 0 while preserving the tag; a drop to a
zero bid price is suppressed only for queries with a threshold set (the
computed drop is forced to 0), not for thresholdless queries. -/
theorem bid_price_classification (q : SearchQuery) (np : NewProduct) (b : Bool)
    (now : ℕ) (db : Database) :
    (∀ pt, (processListing q b now db { np with priceType := pt }).notifications
        = (processListing q b now db np).notifications)
    ∧ (∀ existing, findExistingProduct db.products np = some existing →
        np.price = 0 → existing.price = 0 →
        (processListing q b now db np).notifications = db.notifications)
    ∧ (∀ (rid : ℕ) (item : MarktplaatsItem) (t : ℕ),
        item.priceInfo.priceType = "FAST_BID" →
        (convertItemToProduct rid item t).price = 0
        ∧ (convertItemToProduct rid item t).priceType = some ("FAST_BID")) := by
  refine ⟨?_, ?_, ?_⟩
  · intro pt
    rw [processListing_notifications_char, processListing_notifications_char]
    rfl
  · intro existing hfe h0 hex
    rw [processListing_notifications_char, hfe]
    dsimp only
    have hnlt : ¬ (np.price < existing.price) := by
      rw [h0, hex]
      exact lt_irrefl 0
    rw [decide_eq_false hnlt]
    simp
  · intro rid item t hFB
    constructor
    · show (if item.priceInfo.priceType = "FAST_BID" then 0
            else (item.priceInfo.priceCents : ℚ) / 100) = 0
      rw [if_pos hFB]
    · show some item.priceInfo.priceType = some ("FAST_BID")
      rw [hFB]

/-- A stored bid product whose price is already 0. -/
def bidProduct : Product :=
  { toNewProduct := { sampleListing with price := 0, priceType := some ("FAST_BID") }, id := 1 }

/-- Store for the C7 witness: the bid product at price 0. -/
def bidDb : Database :=
  ⟨[bidProduct], [], [sampleQuery], 2, 1⟩

/-- An upstream Marktplaats item with FAST_BID price semantics. -/
def sampleBidItem : MarktplaatsItem :=
  ⟨"item1", "t", "d", ⟨5000, "FAST_BID"⟩, some ("Amsterdam"), some 1000, [], []⟩

theorem bid_price_classification_witness :
    (processListing sampleQuery false 5 bidDb bidListing).notifications
        = bidDb.notifications
    ∧ (convertItemToProduct 1 sampleBidItem 5).price = 0 := by
  obtain ⟨h1, h2, h3⟩ := bid_price_classification sampleQuery bidListing false 5 bidDb
  exact ⟨h2 bidProduct rfl rfl rfl, (h3 1 sampleBidItem 5 rfl).1⟩

/-! ### Claim C9 -/

/-- C9: a decided notification event is persisted as an unread Notification
row by `createNotification` before any push delivery happens; the stored
database is the same whatever the delivery oracle does (a delivery failure
never removes or rewrites the row, all delivery errors being caught and
logged); and when a delivery with an http image attachment fails, a
plain-text delivery is attempted as fallback before giving up. -/
theorem notification_durability_and_fallback (db : Database)
    (userId productId searchQueryId : ℕ) (t : NotificationType) (now : ℕ)
    (tg photoFails : Bool) (imageUrl : Option String) :
    (notifyAndSend db userId productId searchQueryId t now tg photoFails
        imageUrl).1.notifications
      = db.notifications
          ++ [mkNotification db.nextNotificationId userId productId searchQueryId t now]
    ∧ (mkNotification db.nextNotificationId userId productId searchQueryId t now).isRead
        = false
    ∧ (∀ pf2, (notifyAndSend db userId productId searchQueryId t now tg pf2 imageUrl).1
        = (notifyAndSend db userId productId searchQueryId t now tg photoFails imageUrl).1)
    ∧ (∀ u : String, strStartsWith u ("http") = true →
        sendFormattedMessage true (some u)
          = [DeliveryAttempt.photo u, DeliveryAttempt.textMessage]) := by
  refine ⟨rfl, rfl, fun pf2 => rfl, fun u hu => ?_⟩
  simp [sendFormattedMessage, hu]

theorem notification_durability_and_fallback_witness :
    (notifyAndSend storeDb 1 1 1 NotificationType.PRICE_DROP 5 true true
        (some ("http://img"))).1.notifications
      = storeDb.notifications
          ++ [mkNotification storeDb.nextNotificationId 1 1 1 NotificationType.PRICE_DROP 5]
    ∧ sendFormattedMessage true (some ("http://img"))
        = [DeliveryAttempt.photo ("http://img"), DeliveryAttempt.textMessage] := by
  obtain ⟨h1, -, -, h4⟩ := notification_durability_and_fallback storeDb 1 1 1
    NotificationType.PRICE_DROP 5 true true (some ("http://img"))
  exact ⟨h1, h4 ("http://img") (by decide)⟩

/-! ### Claim C10 -/

/-- C10: when a re-sighted listing's fresh price is ≤ 0 while the stored
price is positive (an item switching to a zero bid price), the computed drop
percentage is 0; hence a query with a threshold set (any value ≥ 1) gets no
PRICE_DROP notification for the drop to zero, while a query with no
threshold still gets one. -/
theorem zero_fresh_price_drop_threshold (q : SearchQuery) (np : NewProduct)
    (existing : Product) (now : ℕ) (db : Database)
    (hfound : findExistingProduct db.products np = some existing)
    (hstored : 0 < existing.price) (hfresh : np.price ≤ 0) :
    calculatePriceDropPercentage existing.price np.price = 0
    ∧ (∀ v : ℚ, q.priceDropThresholdPercent = some v → 1 ≤ v →
        (processListing q false now db np).notifications = db.notifications)
    ∧ (q.priceDropThresholdPercent = none → q.notifyOnPriceDrops = true →
        (processListing q false now db np).notifications
          = db.notifications
              ++ [mkNotification db.nextNotificationId q.userId existing.id q.id
                    NotificationType.PRICE_DROP now]) := by
  have hdrop : calculatePriceDropPercentage existing.price np.price = 0 := by
    unfold calculatePriceDropPercentage
    rw [if_pos (Or.inr hfresh)]
  refine ⟨hdrop, ?_, ?_⟩
  · intro v hv h1
    rw [processListing_notifications_char, hfound]
    dsimp only
    have hm : meetsThreshold q.priceDropThresholdPercent
        (calculatePriceDropPercentage existing.price np.price) = false := by
      rw [hv, hdrop]
      simp only [meetsThreshold, Bool.or_eq_false_iff, beq_eq_false_iff_ne, ne_eq,
        decide_eq_false_iff_not, Int.cast_zero]
      constructor
      · intro h0
        rw [h0] at h1
        norm_num at h1
      · intro hle
        linarith
    rw [hm]
    simp
  · intro hnone hnotify
    rw [processListing_notifications_char, hfound]
    dsimp only
    have hlt : np.price < existing.price := lt_of_le_of_lt hfresh hstored
    have hm : meetsThreshold q.priceDropThresholdPercent
        (calculatePriceDropPercentage existing.price np.price) = true := by
      rw [hnone]
      rfl
    rw [decide_eq_true hlt, hnotify, hm]
    simp

theorem zero_fresh_price_drop_threshold_witness :
    calculatePriceDropPercentage sampleProduct.price zeroListing.price = 0
    ∧ (processListing thresholdQuery false 5 storeDb zeroListing).notifications
        = storeDb.notifications
    ∧ (processListing sampleQuery false 5 storeDb zeroListing).notifications
        = storeDb.notifications
            ++ [mkNotification storeDb.nextNotificationId sampleQuery.userId
                  sampleProduct.id sampleQuery.id NotificationType.PRICE_DROP 5] := by
  have hstored : (0 : ℚ) < sampleProduct.price := by
    show (0 : ℚ) < 100
    norm_num
  have hfresh : zeroListing.price ≤ 0 := by
    show (0 : ℚ) ≤ 0
    norm_num
  obtain ⟨h1, h2, -⟩ := zero_fresh_price_drop_threshold thresholdQuery zeroListing
    sampleProduct 5 storeDb rfl hstored hfresh
  obtain ⟨-, -, h3⟩ := zero_fresh_price_drop_threshold sampleQuery zeroListing
    sampleProduct 5 storeDb rfl hstored hfresh
  exact ⟨h1, h2 50 rfl (by norm_num), h3 rfl rfl⟩
